import Mathlib

/-!
Verification of the dropdown component family and related UI slices of the
danswer web front-end (`web/src/components/Dropdown.tsx`,
`web/src/components/assistants/StarterMessage.tsx`, and the root layout).
Each translated definition names the source construct it embeds.
-/

namespace Danswer

/-- The `string | number` union used by `StringOrNumberOption` in
`Dropdown.tsx`. JS numbers are modelled as integers; none of the verified
behavior depends on fractional values. -/
inductive SNValue where
  | str (s : String)
  | num (n : Int)
  deriving DecidableEq

/-- Embeds `Option<T>` from `Dropdown.tsx` (lines 16-22). Named `Opt` because
`Option` is taken by Lean's core library. The `metadata` and `icon` fields are
purely presentational and play no role in any verified behavior, so they are
omitted from the embedding. -/
structure Opt (T : Type) where
  name : String
  value : T
  description : Option String := none
  deriving DecidableEq

/-- `StringOrNumberOption` from `Dropdown.tsx` (line 24). -/
abbrev StringOrNumberOption := Opt SNValue

/-- Executable check that `pat` is a prefix of `l` (character lists), used to
embed JS `String.prototype.includes`. -/
def startsWithChars : List Char → List Char → Bool
  | [], _ => true
  | _ :: _, [] => false
  | a :: pat, b :: l => a == b && startsWithChars pat l

/-- Executable check that `pat` occurs contiguously inside `l`, used to embed
JS `String.prototype.includes`. -/
def containsChars (pat : List Char) : List Char → Bool
  | [] => pat.isEmpty
  | b :: t => startsWithChars pat (b :: t) || containsChars pat t

/-- JS `s.includes(sub)`: `sub` occurs as a contiguous substring of `s`. -/
def jsIncludes (s sub : String) : Bool :=
  containsChars sub.data s.data

/-- JS `s.toLowerCase()`: lowercases each character. Defined directly over the
character list (rather than through `String.toLower`, which is extensionally
the same map but is defined by well-founded recursion over byte positions and
so does not evaluate inside the kernel). -/
def jsToLower (s : String) : String :=
  String.mk (s.data.map Char.toLower)

/-- JS `s.trim()`: removes leading and trailing whitespace. Defined directly
over the character list for the same reason as `jsToLower`. -/
def jsTrim (s : String) : String :=
  String.mk (((s.data.dropWhile Char.isWhitespace).reverse.dropWhile
    Char.isWhitespace).reverse)

/-- The filter computed by `SearchMultiSelectDropdown` (`Dropdown.tsx`
lines 73-75):
`options.filter((option) => option.name.toLowerCase().includes(searchTerm.toLowerCase()))`. -/
def filteredOptions {T : Type} (options : List (Opt T)) (searchTerm : String) :
    List (Opt T) :=
  options.filter (fun option =>
    jsIncludes (jsToLower option.name) (jsToLower searchTerm))

/-- Spec-side predicate, written from the spec's words: the option's `name`
contains the search term as a case-insensitive substring (both sides lowered,
contiguous-substring containment). -/
def nameMatchesCI {T : Type} (s : String) (o : Opt T) : Prop :=
  (jsToLower s).data <:+: (jsToLower o.name).data

instance {T : Type} (s : String) (o : Opt T) : Decidable (nameMatchesCI s o) :=
  List.decidableInfix _ _

theorem startsWithChars_iff (pat l : List Char) :
    startsWithChars pat l = true ↔ pat <+: l := by
  induction pat generalizing l with
  | nil => simp [startsWithChars]
  | cons a pat ih =>
    cases l with
    | nil => simp [startsWithChars]
    | cons b t => simp [startsWithChars, List.cons_prefix_cons, ih]

theorem containsChars_iff (pat l : List Char) :
    containsChars pat l = true ↔ pat <:+: l := by
  induction l with
  | nil => simp [containsChars, List.isEmpty_iff]
  | cons b t ih =>
    simp [containsChars, startsWithChars_iff, ih, List.infix_cons_iff]

theorem jsIncludes_iff (s sub : String) :
    jsIncludes s sub = true ↔ sub.data <:+: s.data :=
  containsChars_iff sub.data s.data

theorem containsChars_nil_left (l : List Char) : containsChars [] l = true := by
  cases l <;> rfl

/-- The source's filter predicate agrees pointwise with the spec-side
case-insensitive-substring predicate. -/
theorem filterPred_eq_nameMatchesCI {T : Type} (s : String) (o : Opt T) :
    jsIncludes (jsToLower o.name) (jsToLower s) = decide (nameMatchesCI s o) := by
  rw [Bool.eq_iff_iff]
  simp only [jsIncludes_iff, decide_eq_true_eq]
  exact Iff.rfl

/-- The component-local state of `SearchMultiSelectDropdown` (`Dropdown.tsx`
lines 62-63): the `isOpen` and `searchTerm` `useState` hooks. -/
structure SMSState where
  isOpen : Bool
  searchTerm : String
  deriving DecidableEq

/-- A callback invocation made by a `SearchMultiSelectDropdown` handler, with
the argument the source passes: `onSelect` receives the whole selected option
(`onSelect(option)`, line 68) and `onCreateLabel` receives the raw search term
(`onCreateLabel(searchTerm)`, line 190). -/
inductive SMSEvent where
  | onSelect (selected : StringOrNumberOption)
  | onCreateLabel (name : String)
  deriving DecidableEq

/-- A mounted DOM region, abstracted as the set of event-target node ids for
which `region.contains(target)` holds. An `Option Region` models a React ref
whose `current` may be `null` (region not mounted). -/
structure Region where
  nodes : List Nat
  deriving DecidableEq

/-- DOM `Node.contains` on the abstracted region. -/
def Region.containsTarget (r : Region) (t : Nat) : Bool :=
  r.nodes.contains t

/-- `handleClickOutside` of `SearchMultiSelectDropdown` (`Dropdown.tsx`
lines 78-87): `setIsOpen(false)` runs only when both `dropdownRef.current` and
`dropdownMenuRef.current` are non-null and neither contains the event target;
otherwise the state is untouched. -/
def SearchMultiSelectDropdown.handleClickOutside
    (dropdownRef dropdownMenuRef : Option Region) (target : Nat)
    (st : SMSState) : SMSState :=
  match dropdownRef, dropdownMenuRef with
  | some r, some m =>
    if !(r.containsTarget target) && !(m.containsTarget target) then
      { st with isOpen := false }
    else
      st
  | _, _ => st

/-- `handleSelect` of `SearchMultiSelectDropdown` (`Dropdown.tsx` lines 67-71):
`onSelect(option); setIsOpen(false); setSearchTerm("")`. The first component
lists the callback invocations, in order. -/
def SearchMultiSelectDropdown.handleSelect (option : StringOrNumberOption) :
    List SMSEvent × SMSState :=
  ([SMSEvent.onSelect option], { isOpen := false, searchTerm := "" })

/-- The user/DOM events a mounted `SearchMultiSelectDropdown` handles. -/
inductive SMSAction where
  | focusInput
  | toggleButtonClick
  | inputChange (value : String)
  | outsideMouseDown (dropdownRef dropdownMenuRef : Option Region) (target : Nat)
  | selectOption (option : StringOrNumberOption)
  | createLabelClick

/-- One step of `SearchMultiSelectDropdown`'s event handling (`Dropdown.tsx`):
`onFocus` (line 112) opens; the chevron button (line 133) toggles; the input's
`onChange` (lines 104-111) stores the value and opens exactly when the new
value is non-empty (JS truthiness of a string); an outside mousedown runs
`handleClickOutside`; selecting a row runs `handleSelect`; clicking the
create-label row (lines 189-193) runs
`onCreateLabel(searchTerm); setIsOpen(false); setSearchTerm("")`. -/
def SMSStep (a : SMSAction) (st : SMSState) : List SMSEvent × SMSState :=
  match a with
  | SMSAction.focusInput => ([], { st with isOpen := true })
  | SMSAction.toggleButtonClick => ([], { st with isOpen := !st.isOpen })
  | SMSAction.inputChange v =>
    ([], { searchTerm := v, isOpen := !(v == "") })
  | SMSAction.outsideMouseDown dr dm t =>
    ([], SearchMultiSelectDropdown.handleClickOutside dr dm t st)
  | SMSAction.selectOption o => SearchMultiSelectDropdown.handleSelect o
  | SMSAction.createLabelClick =>
    ([SMSEvent.onCreateLabel st.searchTerm], { isOpen := false, searchTerm := "" })

/-- Render condition of the create-label row (`Dropdown.tsx` lines 178-183):
`onCreateLabel && searchTerm.trim() !== "" && !filteredOptions.some((option) =>
option.name.toLowerCase() === searchTerm.toLowerCase())`. -/
def showCreateOption (onCreateLabelProvided : Bool)
    (options : List StringOrNumberOption) (searchTerm : String) : Bool :=
  onCreateLabelProvided && !(jsTrim searchTerm == "") &&
    !((filteredOptions options searchTerm).any fun option =>
      jsToLower option.name == jsToLower searchTerm)

/-- Render condition of the "No matches found" row (`Dropdown.tsx`
lines 201-202): `filteredOptions.length === 0 && (!onCreateLabel ||
searchTerm.trim() === "")`. -/
def showNoMatches (onCreateLabelProvided : Bool)
    (options : List StringOrNumberOption) (searchTerm : String) : Bool :=
  ((filteredOptions options searchTerm).length == 0) &&
    (!onCreateLabelProvided || jsTrim searchTerm == "")

/-- `handleClickOutside` of `CustomDropdown` (`Dropdown.tsx` lines 228-235):
one ref covers the whole widget (the panel is rendered inside the anchor div);
`setIsOpen(false)` runs only when the ref is non-null and does not contain the
target. Returns the new `isOpen`. -/
def CustomDropdown.handleClickOutside (dropdownRef : Option Region)
    (target : Nat) (isOpen : Bool) : Bool :=
  match dropdownRef with
  | some r => if !(r.containsTarget target) then false else isOpen
  | none => isOpen

/-- A callback invocation made by `DefaultDropdown`: `onSelect` receives
`string | number | null`, modelled as `Option SNValue` with `none` for
`null`. -/
inductive DDEvent where
  | onSelect (value : Option SNValue)
  deriving DecidableEq

/-- `handleSelect` of `DefaultDropdown` (`Dropdown.tsx` lines 343-346):
`onSelect(value); setIsOpen(false)`. The second component is the new
`isOpen`. -/
def DefaultDropdown.handleSelect (value : Option SNValue) :
    List DDEvent × Bool :=
  ([DDEvent.onSelect value], false)

/-- A row rendered in `DefaultDropdown`'s panel: the sentinel "Default" row or
a real option row. -/
inductive DDRow where
  | defaultRow
  | optionRow (o : StringOrNumberOption)
  deriving DecidableEq

/-- The rows of `DefaultDropdown`'s panel in render order (`Dropdown.tsx`
lines 385-405): the sentinel row first when `includeDefault` is set, then one
row per option. -/
def DefaultDropdown.rows (includeDefault : Bool)
    (options : List StringOrNumberOption) : List DDRow :=
  (if includeDefault then [DDRow.defaultRow] else []) ++ options.map DDRow.optionRow

/-- Clicking a `DefaultDropdown` row: the sentinel row runs
`handleSelect(null)` (line 389) and an option row runs
`handleSelect(option.value)` (line 400). -/
def DDRow.click : DDRow → List DDEvent × Bool
  | DDRow.defaultRow => DefaultDropdown.handleSelect none
  | DDRow.optionRow o => DefaultDropdown.handleSelect (some o.value)

/-- The gating values the root layout consults (`GatingType.NONE` /
`GatingType.FULL`); the defining module is outside this slice, and only these
two values are read by `RootLayout`. -/
inductive GatingType where
  | NONE
  | FULL
  deriving DecidableEq

/-- The slice of the settings object `RootLayout` reads:
`combinedSettings?.settings.product_gating ?? GatingType.NONE` — the field is
optional at the use site because of the `??` fallback. -/
structure Settings where
  product_gating : Option GatingType
  deriving DecidableEq

/-- The combined settings object returned by `fetchSettingsSS`; `none` at the
call site models a missing or failed fetch. -/
structure CombinedSettings where
  settings : Settings
  deriving DecidableEq

/-- `productGating` in `RootLayout`:
`combinedSettings?.settings.product_gating ?? GatingType.NONE`. -/
def productGating (combinedSettings : Option CombinedSettings) : GatingType :=
  match combinedSettings with
  | some c => c.settings.product_gating.getD GatingType.NONE
  | none => GatingType.NONE

/-- The audiences the static error notice addresses with distinct guidance
("If you're an admin, please check our docs ... If you're a user, please
contact your admin"). -/
inductive Audience where
  | admin
  | endUser
  deriving DecidableEq

/-- What `RootLayout` returns, projected to the page-level alternatives of the
source: the static configuration-error notice (carrying the audiences its
guidance distinguishes), the access-restricted notice, or the application
shell (`AppProvider` with children). -/
inductive Page where
  | errorNotice (guidance : List Audience)
  | accessRestricted
  | appShell
  deriving DecidableEq

/-- Discriminator: is the page the application shell? -/
def Page.isAppShell : Page → Bool
  | Page.appShell => true
  | _ => false

/-- `RootLayout` (root layout source, lines 184-274): when `combinedSettings`
is falsy it returns the static error notice (with admin and end-user
guidance); when gating is `FULL` it returns the access-restricted notice;
otherwise the application shell. The function takes only the single fetch
result — there is no retry path in the source. -/
def RootLayout (combinedSettings : Option CombinedSettings) : Page :=
  match combinedSettings with
  | none => Page.errorNotice [Audience.admin, Audience.endUser]
  | some c =>
    if productGating (some c) = GatingType.FULL then
      Page.accessRestricted
    else
      Page.appShell

/-- One starter message of a persona (`starter_messages` entries): the button
shows `name` and submits `message`. -/
structure StarterMessage where
  name : String
  message : String
  deriving DecidableEq

/-- The slice of `Persona` read by `StarterMessages`: the optional
`starter_messages` list (`currentPersona?.starter_messages`). -/
structure Persona where
  starter_messages : Option (List StarterMessage)
  deriving DecidableEq

/-- The starter-message buttons rendered by `StarterMessages`
(`StarterMessage.tsx` lines 29-63): when `starter_messages` is present and
non-empty, `starter_messages.slice(0, isMobile ? 2 : 4)`, one button per
element in order; otherwise nothing. -/
def StarterMessages (currentPersona : Persona) (isMobile : Bool) :
    List StarterMessage :=
  match currentPersona.starter_messages with
  | some msgs =>
    if msgs.length > 0 then msgs.take (if isMobile then 2 else 4) else []
  | none => []

/-- C1: for every option list L and search term s, the filter in
`SearchMultiSelectDropdown` outputs exactly the subsequence of L whose
options' `name` contains s as a case-insensitive substring (equality with the
spec-side filter, which pins down the output including duplicates), preserving
L's original order (it is a sublist of L); and for s = "" the output is L
unchanged. -/
theorem C1_filteredOptions_characterization (L : List StringOrNumberOption)
    (s : String) :
    List.Sublist (filteredOptions L s) L ∧
    filteredOptions L s = L.filter (fun o => decide (nameMatchesCI s o)) ∧
    filteredOptions L "" = L := by
  refine ⟨List.filter_sublist _, ?_, ?_⟩
  · exact List.filter_congr fun o _ => filterPred_eq_nameMatchesCI s o
  · apply List.filter_eq_self.mpr
    intro o _
    have h : (jsToLower "").data = ([] : List Char) := by decide
    unfold jsIncludes
    rw [h]
    exact containsChars_nil_left _

/-- C2 counterexample: the claim says the selection callback of
`SearchMultiSelectDropdown` is invoked with the chosen option's `value`. In
the source (`Dropdown.tsx` line 68) `handleSelect` calls `onSelect(option)`
with the whole option, so the invocation is not determined by the value: two
options with equal `value` but different `name` produce different callback
invocations. -/
theorem C2_counterexample :
    (Opt.mk "A" (SNValue.num 1) none : StringOrNumberOption).value
      = (Opt.mk "B" (SNValue.num 1) none : StringOrNumberOption).value ∧
    SearchMultiSelectDropdown.handleSelect (Opt.mk "A" (SNValue.num 1) none)
      ≠ SearchMultiSelectDropdown.handleSelect (Opt.mk "B" (SNValue.num 1) none) := by
  decide

/-- C2 amended: selecting a rendered option invokes the selection callback
exactly once and transitions the widget to Closed; in
`SearchMultiSelectDropdown` the callback receives the chosen option itself
(and the search term is cleared), while in `DefaultDropdown` it receives the
option's `value`. -/
theorem C2_amended_selection_effects (o : StringOrNumberOption) :
    SearchMultiSelectDropdown.handleSelect o
      = ([SMSEvent.onSelect o], { isOpen := false, searchTerm := "" }) ∧
    DDRow.click (DDRow.optionRow o) = ([DDEvent.onSelect (some o.value)], false) :=
  ⟨rfl, rfl⟩

/-- C5: with `includeDefault` enabled, `DefaultDropdown` prepends the sentinel
"Default" row before all real option rows; clicking it invokes the selection
callback with `null` (never with any real option's value) and closes the
dropdown. -/
theorem C5_default_sentinel (L : List StringOrNumberOption) (v : SNValue) :
    DefaultDropdown.rows true L = DDRow.defaultRow :: L.map DDRow.optionRow ∧
    DDRow.click DDRow.defaultRow = ([DDEvent.onSelect none], false) ∧
    DDEvent.onSelect (some v) ∉ (DDRow.click DDRow.defaultRow).1 := by
  refine ⟨rfl, rfl, ?_⟩
  intro h
  simp [DDRow.click, DefaultDropdown.handleSelect] at h

/-- C5 witness: the theorem applied at the empty option list and value 0. -/
theorem C5_witness : DefaultDropdown.rows true [] = [DDRow.defaultRow] :=
  (C5_default_sentinel [] (SNValue.num 0)).1

/-- C7: the search input's change handler stores the new value and leaves the
widget Open exactly when the value is non-empty — an empty value closes the
widget (from any state, in particular from Open), a non-empty value opens
it. -/
theorem C7_inputChange_open_state (v : String) (st : SMSState) :
    (SMSStep (SMSAction.inputChange v) st).2.isOpen = !(v == "") ∧
    (SMSStep (SMSAction.inputChange v) st).2.searchTerm = v :=
  ⟨rfl, rfl⟩

/-- C8: when the settings fetch yields no settings, `RootLayout` renders the
static error notice whose guidance distinguishes the admin audience from the
end-user audience, and not the application shell. (No retry exists in the
source: `RootLayout` is a function of the single fetch result.) -/
theorem C8_rootLayout_error_notice :
    RootLayout none = Page.errorNotice [Audience.admin, Audience.endUser] ∧
    Page.isAppShell (RootLayout none) = false := by
  decide

/-- C9: an outside mousedown changes only the open state — it makes no
callback invocation and leaves the search term unchanged — while the search
term is cleared exactly by selecting an option or activating the create-new
affordance, and is otherwise rewritten only by the user editing the input;
focus and toggle clicks also preserve it. -/
theorem C9_searchTerm_frame (dr dm : Option Region) (t : Nat) (st : SMSState)
    (v : String) (o : StringOrNumberOption) :
    (SMSStep (SMSAction.outsideMouseDown dr dm t) st).1 = [] ∧
    (SMSStep (SMSAction.outsideMouseDown dr dm t) st).2.searchTerm = st.searchTerm ∧
    (SMSStep SMSAction.focusInput st).2.searchTerm = st.searchTerm ∧
    (SMSStep SMSAction.toggleButtonClick st).2.searchTerm = st.searchTerm ∧
    (SMSStep (SMSAction.selectOption o) st).2.searchTerm = "" ∧
    (SMSStep SMSAction.createLabelClick st).2.searchTerm = "" ∧
    (SMSStep (SMSAction.inputChange v) st).2.searchTerm = v := by
  refine ⟨rfl, ?_, rfl, rfl, rfl, rfl, rfl⟩
  unfold SMSStep SearchMultiSelectDropdown.handleClickOutside
  cases dr with
  | none => rfl
  | some r =>
    cases dm with
    | none => rfl
    | some m =>
      dsimp only
      split <;> rfl

/-- Checking the case-insensitive exact-name match over the filtered list is
the same as checking it over the full option list: any option whose lowered
name equals the lowered term also contains it, so it survives the filter. -/
theorem anyNameEq_filtered (L : List StringOrNumberOption) (t : String) :
    ((filteredOptions L t).any fun o => jsToLower o.name == jsToLower t)
      = (L.any fun o => jsToLower o.name == jsToLower t) := by
  rw [Bool.eq_iff_iff]
  simp only [List.any_eq_true, filteredOptions, List.mem_filter, beq_iff_eq]
  constructor
  · rintro ⟨o, ⟨ho, _⟩, he⟩
    exact ⟨o, ho, he⟩
  · rintro ⟨o, ho, he⟩
    refine ⟨o, ⟨ho, ?_⟩, he⟩
    rw [jsIncludes_iff, he]

/-- C3 counterexample: the claim says the create-new affordance is offered
whenever a creation callback is supplied, the term is non-empty, and no
option's name equals it case-insensitively. At the whitespace-only term `" "`
(non-empty, and trivially matched by no option of the empty list) the source
condition `searchTerm.trim() !== ""` (`Dropdown.tsx` line 179) fails, so the
affordance is not offered. -/
theorem C3_counterexample :
    showCreateOption true [] " " = false ∧
    (" " : String) ≠ "" ∧
    (([] : List StringOrNumberOption).all fun o =>
      !(jsToLower o.name == jsToLower " ")) = true := by
  decide

/-- C3 amended: the create-new affordance is offered exactly when a creation
callback is supplied, the search term t is non-empty after trimming
whitespace (`t.trim() !== ""`), and no existing option's name equals t
case-insensitively; activating it invokes the creation callback with the raw
term, then closes the widget and clears the search term. -/
theorem C3_amended_createOption (p : Bool) (L : List StringOrNumberOption)
    (t : String) (st : SMSState) :
    (showCreateOption p L t = true ↔
      p = true ∧ jsTrim t ≠ "" ∧ ∀ o ∈ L, jsToLower o.name ≠ jsToLower t) ∧
    SMSStep SMSAction.createLabelClick st
      = ([SMSEvent.onCreateLabel st.searchTerm],
          { isOpen := false, searchTerm := "" }) := by
  refine ⟨?_, rfl⟩
  unfold showCreateOption
  rw [anyNameEq_filtered]
  simp [List.any_eq_true, not_exists, and_assoc]

/-- C3 amended witness: the theorem applied at a creation callback, one
non-matching option and the term "New". -/
theorem C3_amended_witness :
    showCreateOption true [Opt.mk "Alpha" (SNValue.num 1) none] "New" = true :=
  (C3_amended_createOption true [Opt.mk "Alpha" (SNValue.num 1) none] "New"
      (SMSState.mk true "New")).1.mpr
    ⟨rfl, by decide, by decide⟩

/-- C4: for a mousedown while a widget is open, if the target is outside both
the anchor (`dropdownRef`) and the floating panel (`dropdownMenuRef`), the
widget closes; if the target is inside either region, the state is unchanged;
and when a region is not mounted (null ref) the handler leaves the state
unchanged (null-safety). The same holds for `CustomDropdown`'s single-region
handler (its panel is rendered inside the anchor, so one ref covers both). -/
theorem C4_outside_mousedown (r m : Region) (dr dm : Option Region)
    (t : Nat) (st : SMSState) (isOpen : Bool) :
    (r.containsTarget t = false → m.containsTarget t = false →
      SearchMultiSelectDropdown.handleClickOutside (some r) (some m) t st
        = { st with isOpen := false }) ∧
    (r.containsTarget t = true ∨ m.containsTarget t = true →
      SearchMultiSelectDropdown.handleClickOutside (some r) (some m) t st = st) ∧
    SearchMultiSelectDropdown.handleClickOutside none dm t st = st ∧
    SearchMultiSelectDropdown.handleClickOutside dr none t st = st ∧
    (r.containsTarget t = false →
      CustomDropdown.handleClickOutside (some r) t isOpen = false) ∧
    (r.containsTarget t = true →
      CustomDropdown.handleClickOutside (some r) t isOpen = isOpen) ∧
    CustomDropdown.handleClickOutside none t isOpen = isOpen := by
  refine ⟨?_, ?_, rfl, ?_, ?_, ?_, rfl⟩
  · intro h1 h2
    simp [SearchMultiSelectDropdown.handleClickOutside, h1, h2]
  · rintro (h | h) <;> simp [SearchMultiSelectDropdown.handleClickOutside, h]
  · cases dr <;> rfl
  · intro h1
    simp [CustomDropdown.handleClickOutside, h1]
  · intro h1
    simp [CustomDropdown.handleClickOutside, h1]

/-- C4 witness: the theorem applied with anchor region {1}, panel region {2},
state Open with term "q"; a mousedown on target 3 (outside both) closes the
widget, and one on target 1 (inside the anchor) leaves the state unchanged. -/
theorem C4_witness :
    SearchMultiSelectDropdown.handleClickOutside (some (Region.mk [1]))
        (some (Region.mk [2])) 3 (SMSState.mk true "q") = SMSState.mk false "q" ∧
    SearchMultiSelectDropdown.handleClickOutside (some (Region.mk [1]))
        (some (Region.mk [2])) 1 (SMSState.mk true "q") = SMSState.mk true "q" :=
  ⟨(C4_outside_mousedown (Region.mk [1]) (Region.mk [2]) none none 3
      (SMSState.mk true "q") true).1 (by decide) (by decide),
   (C4_outside_mousedown (Region.mk [1]) (Region.mk [2]) none none 1
      (SMSState.mk true "q") true).2.1 (Or.inl (by decide))⟩

/-- C6: the "No matches found" row is rendered exactly when the filtered list
is empty and the create-new affordance is not offered; in particular it is
rendered whenever the filtered list is empty and either no creation callback
is supplied or the search term is empty. -/
theorem C6_noMatches (p : Bool) (L : List StringOrNumberOption) (t : String) :
    (showNoMatches p L t = true ↔
      filteredOptions L t = [] ∧ showCreateOption p L t = false) ∧
    (filteredOptions L t = [] → p = false ∨ t = "" →
      showNoMatches p L t = true) := by
  constructor
  · by_cases hf : filteredOptions L t = []
    · simp only [showNoMatches, showCreateOption, hf, List.length_nil,
        List.any_nil, Bool.not_false, Bool.and_true]
      cases p <;> cases htr : (jsTrim t == "") <;> simp [htr]
    · have hl : ((filteredOptions L t).length == 0) = false := by
        simp [List.length_eq_zero, hf]
      simp [showNoMatches, hl, hf]
  · intro h1 h2
    have hl : ((filteredOptions L t).length == 0) = true := by
      simp [List.length_eq_zero, h1]
    rcases h2 with h2 | h2
    · simp [showNoMatches, hl, h2]
    · subst h2
      simp [showNoMatches, hl]
      right
      decide

/-- C6 witness: the theorem applied with no creation callback, no options and
term "q": the filtered list is empty and the indicator is rendered. -/
theorem C6_witness : showNoMatches false [] "q" = true :=
  (C6_noMatches false [] "q").2 (by decide) (Or.inl rfl)

/-- C10: `StarterMessages` renders at most 2 starter-message buttons when the
mobile flag is set and at most 4 otherwise; the rendered buttons are a prefix
of the persona's `starter_messages` list in order; and an absent or empty
list renders no buttons. -/
theorem C10_starterMessages (p : Persona) (mobile : Bool) :
    (StarterMessages p mobile).length ≤ (if mobile then 2 else 4) ∧
    StarterMessages p mobile <+: p.starter_messages.getD [] ∧
    StarterMessages (Persona.mk none) mobile = [] ∧
    StarterMessages (Persona.mk (some [])) mobile = [] := by
  refine ⟨?_, ?_, rfl, ?_⟩
  · unfold StarterMessages
    cases hp : p.starter_messages with
    | none => simp
    | some msgs =>
      by_cases hm : msgs.length > 0
      · simp only [hm, if_true]
        rw [List.length_take]
        exact Nat.min_le_left _ _
      · simp [hm]
  · unfold StarterMessages
    cases hp : p.starter_messages with
    | none => simp
    | some msgs =>
      by_cases hm : msgs.length > 0
      · simp only [hm, if_true, Option.getD_some]
        exact List.take_prefix _ _
      · simp [hm]
  · cases mobile <;> rfl

end Danswer
